import Mathlib

/-!
Shallow embedding of `backend/main.py` of the Household-power-consumption
dashboard: a FastAPI service that loads delimited power-consumption tables,
standardizes a fixed 7-column feature set, delegates to an isolation-forest
detector, and shapes the per-row predictions into JSON responses.

A pandas DataFrame is modelled as a `Table`: a list of column names plus a
list of rows, each row a list of cells.  A cell is either a numeric value
(`Cell.num`, rationals standing in for the floats of the source), a missing
value (`Cell.na`, pandas NaN/NaT), leftover text that does not parse as a
number (`Cell.text`), or a parsed timestamp (`Cell.time`).  The external
sklearn artifacts (`StandardScaler`, `IsolationForest`) are abstract
function-carrying records, since their numerics live outside the repository.
-/

/-- Days per month, with the Gregorian leap-year rule, used to validate the
day field when parsing `%d/%m/%Y %H:%M:%S` timestamps. -/
def daysInMonth (y m : Nat) : Nat :=
  if m = 2 then (if y % 4 = 0 ∧ (y % 100 ≠ 0 ∨ y % 400 = 0) then 29 else 28)
  else if m = 4 ∨ m = 6 ∨ m = 9 ∨ m = 11 then 30
  else 31

/-- A calendar timestamp as produced by parsing `Date + ' ' + Time` with the
fixed format `%d/%m/%Y %H:%M:%S` in `load_default_dataset` and the upload
handlers. -/
structure Timestamp where
  year : Nat
  month : Nat
  day : Nat
  hour : Nat
  minute : Nat
  second : Nat
deriving DecidableEq, Repr

/-- Chronological key: strictly monotone encoding of a valid timestamp, used
to model pandas datetime comparisons in the date-range filters. -/
def Timestamp.key (t : Timestamp) : Nat :=
  ((((t.year * 13 + t.month) * 32 + t.day) * 24 + t.hour) * 60 + t.minute) * 60 + t.second

/-- Splitting a character list on a separator, preserving empty segments
(the behavior of Python / pandas field splitting on a single-character
separator). -/
def splitChar (sep : Char) (l : List Char) : List (List Char) :=
  l.foldr (fun c acc =>
    match acc with
    | h :: t => if c = sep then [] :: h :: t else (c :: h) :: t
    | [] => [[c]]) [[]]

/-- Reading a non-empty all-digit character list as a number, the way a
`strptime`-style field parser does. -/
def digitsToNat (l : List Char) : Option Nat :=
  if !l.isEmpty && l.all Char.isDigit then
    some (l.foldl (fun acc c => acc * 10 + (c.toNat - 48)) 0)
  else none

/-- Strict parse of `"%d/%m/%Y %H:%M:%S"`, the fixed format passed to
`pd.to_datetime` at `main.py:76,135,225`; any mismatch yields `none`
(pandas `errors='coerce'` yields NaT). -/
def parseTimestamp (s : String) : Option Timestamp :=
  match splitChar ' ' s.data with
  | [d, t] =>
    match splitChar '/' d, splitChar ':' t with
    | [ds, ms, ys], [hs, mis, ss] =>
      match digitsToNat ds, digitsToNat ms, digitsToNat ys,
          digitsToNat hs, digitsToNat mis, digitsToNat ss with
      | some dd, some mm, some yy, some hh, some mi, some sec =>
        if 1 ≤ mm ∧ mm ≤ 12 ∧ 1 ≤ dd ∧ dd ≤ daysInMonth yy mm ∧
            hh < 24 ∧ mi < 60 ∧ sec < 60 then
          some ⟨yy, mm, dd, hh, mi, sec⟩
        else none
      | _, _, _, _, _, _ => none
    | _, _ => none
  | _ => none

/-- One DataFrame cell. -/
inductive Cell where
  | num (q : ℚ)
  | na
  | text (s : String)
  | time (t : Timestamp)
deriving DecidableEq, Repr

/-- A pandas DataFrame: named columns over rows of cells. -/
structure Table where
  columns : List String
  rows : List (List Cell)
deriving DecidableEq, Repr

/-- Rectangularity: every row has one cell per column (pandas guarantees
this for any DataFrame produced by `read_csv`). -/
def Table.WF (t : Table) : Prop :=
  ∀ r ∈ t.rows, r.length = t.columns.length

instance (t : Table) : Decidable t.WF :=
  inferInstanceAs (Decidable (∀ r ∈ t.rows, r.length = t.columns.length))

/-- `row[c]`: the cell of row `r` under column `c` (given the column list it
is aligned with); `na` when the column is absent. -/
def getCellRow (cols : List String) (r : List Cell) (c : String) : Cell :=
  match (cols.zip r).find? (fun p => p.1 == c) with
  | some p => p.2
  | none => Cell.na

/-- `na_values='?'` of `pd.read_csv` (`main.py:72,129,219`): a literal `"?"`
becomes a missing value at read time on the semicolon-delimited paths. -/
def naQuestion (c : Cell) : Cell :=
  if c = Cell.text "?" then Cell.na else c

/-- `pd.to_datetime(df['Date'] + ' ' + df['Time'], format=..., errors='coerce')`
applied to one row: string concatenation of the two source cells followed by
the strict fixed-format parse; any failure gives NaT (`na`). -/
def dtCell (d t : Cell) : Cell :=
  match d, t with
  | Cell.text ds, Cell.text ts =>
    match parseTimestamp (ds ++ " " ++ ts) with
    | some x => Cell.time x
    | none => Cell.na
  | _, _ => Cell.na

/-- Column list after `df['Datetime'] = ...` (assign-or-append, as pandas
does) followed by `df.drop(columns=['Date', 'Time'])`. -/
def dtCols (cols : List String) : List String :=
  let withDT := if "Datetime" ∈ cols then cols else cols ++ ["Datetime"]
  withDT.filter (fun c => !(c == "Date" || c == "Time"))

/-- Row contents after the `Datetime` assignment and the drop of the `Date`
and `Time` columns. -/
def dtRow (cols : List String) (r : List Cell) : List Cell :=
  let v := dtCell (getCellRow cols r "Date") (getCellRow cols r "Time")
  let paired :=
    if "Datetime" ∈ cols then
      (cols.zip r).map (fun p => if p.1 == "Datetime" then ("Datetime", v) else p)
    else cols.zip r ++ [("Datetime", v)]
  (paired.filter (fun p => !(p.1 == "Date" || p.1 == "Time"))).map Prod.snd

/-- The guard `if 'Date' in df.columns and 'Time' in df.columns`. -/
def hasDateTimeCols (cols : List String) : Bool :=
  cols.contains "Date" && cols.contains "Time"

/-- Columns after the conditional date/time handling step. -/
def dtColsIf (cols : List String) : List String :=
  if hasDateTimeCols cols then dtCols cols else cols

/-- A row after the conditional date/time handling step. -/
def dtRowIf (cols : List String) (r : List Cell) : List Cell :=
  if hasDateTimeCols cols then dtRow cols r else r

/-- `pd.to_numeric(col, errors='coerce')` on one cell: numbers survive,
everything else becomes missing. -/
def numify (c : Cell) : Cell :=
  match c with
  | Cell.num q => Cell.num q
  | _ => Cell.na

/-- The `for col in df.columns: if col != 'Datetime': to_numeric` loop
applied to one row. -/
def coRow (cols : List String) (r : List Cell) : List Cell :=
  (cols.zip r).map (fun p => if p.1 == "Datetime" then p.2 else numify p.2)

/-- Whether a cell is pandas-missing. -/
def Cell.isNa : Cell → Bool
  | Cell.na => true
  | _ => false

/-- The row predicate of `df.dropna()`: kept iff no cell is missing. -/
def rowOk (r : List Cell) : Bool := r.all (fun c => !c.isNa)

/-- The full per-row preprocessing of the shared loading pipeline: date/time
combination then numeric coercion (`main.py:75-82,134-141,224-231`). -/
def loadRow (cols : List String) (r : List Cell) : List Cell :=
  coRow (dtColsIf cols) (dtRowIf cols r)

/-- Shared preprocessing applied after the raw delimited read: combine
`Date`/`Time` into `Datetime`, coerce all other columns to numeric, and drop
any row with a missing value (`df.dropna()`). -/
def preprocess (t : Table) : Table :=
  { columns := dtColsIf t.columns,
    rows := (t.rows.map (loadRow t.columns)).filter rowOk }

/-- The raw semicolon-delimited read with `na_values='?'`: the parsed table
with every literal `"?"` turned into a missing value. -/
def readTxt (t : Table) : Table :=
  { columns := t.columns, rows := t.rows.map (fun r => r.map naQuestion) }

/-- Loading an uploaded `.csv` (plain `pd.read_csv`, no `na_values`),
then the shared preprocessing. -/
def loadCsv (t : Table) : Table := preprocess t

/-- Loading an uploaded `.txt` / the default file (semicolon-delimited read
with `na_values='?'`), then the shared preprocessing. -/
def loadTxt (t : Table) : Table := preprocess (readTxt t)

/-- `load_default_dataset()` (`main.py:63-91`): `none` models a missing or
unreadable default file, otherwise the `.txt` pipeline over its raw parse. -/
def load_default_dataset (raw : Option Table) : Option Table := raw.map loadTxt

/-- `sklearn.preprocessing.StandardScaler`, abstract: only its fitted
`transform` is visible to this repository. -/
structure StandardScaler where
  transform : List ℚ → List ℚ

/-- `sklearn.ensemble.IsolationForest`, abstract: per-row label (`1` normal,
`-1` anomalous) and per-row `decision_function` score. -/
structure IsolationForest where
  predictRow : List ℚ → Int
  scoreRow : List ℚ → ℚ

/-- The external `IsolationForest(...).fit` constructor-and-fit, abstracted
over its three fixed hyperparameters (`n_estimators`, `contamination`,
`random_state`) and the scaled training matrix. -/
structure ForestFitter where
  fit : Nat → ℚ → Nat → List (List ℚ) → IsolationForest

/-- The external `StandardScaler().fit` over a feature matrix. -/
structure ScalerFitter where
  fitScaler : List (List ℚ) → StandardScaler

/-- State of a persisted artifact (or pair of artifacts) on disk: missing,
present but failing to deserialize, or present with the stored value. -/
inductive FileLoad (α : Type) where
  | absent
  | corrupt
  | stored (v : α)

/-- `load_model()` (`main.py:35-61`): tries the backend-directory pair
first; a deserialization failure there is caught and yields nothing (no
fallback); only when the primary pair is absent is the `models`
subdirectory pair tried. -/
def load_model (backendDir modelsDir : FileLoad (IsolationForest × StandardScaler)) :
    Option (IsolationForest × StandardScaler) :=
  match backendDir with
  | FileLoad.stored p => some p
  | FileLoad.corrupt => none
  | FileLoad.absent =>
    match modelsDir with
    | FileLoad.stored p => some p
    | _ => none

/-- The fixed 7-column feature set (`main.py:147-148,237-238,332-333,424-425`). -/
def requiredFeatures : List String :=
  ["Global_active_power", "Global_reactive_power", "Voltage",
   "Global_intensity", "Sub_metering_1", "Sub_metering_2", "Sub_metering_3"]

/-- `[f for f in features if f not in df.columns]`. -/
def missingFeatures (t : Table) : List String :=
  requiredFeatures.filter (fun f => !(t.columns.contains f))

/-- Numeric value of `row[f]` (0 only as a formal placeholder for absent or
non-numeric cells, which cannot occur on the paths that read it). -/
def featVal (t : Table) (r : List Cell) (f : String) : ℚ :=
  match getCellRow t.columns r f with
  | Cell.num q => q
  | _ => 0

/-- `df[features]` restricted to one row: the 7 feature values in order. -/
def featVec (t : Table) (r : List Cell) : List ℚ :=
  requiredFeatures.map (featVal t r)

/-- `df[features]` as a matrix. -/
def featMatrix (t : Table) : List (List ℚ) := t.rows.map (featVec t)

/-- Timestamp content of a cell, if any. -/
def cellTime (c : Cell) : Option Timestamp :=
  match c with
  | Cell.time x => some x
  | _ => none

/-- One element of the `anomalies` response array (`main.py:173-183`). -/
structure AnomalyEntry where
  datetime : Option Timestamp
  global_active_power : ℚ
  global_reactive_power : ℚ
  voltage : ℚ
  global_intensity : ℚ
  sub_metering_1 : ℚ
  sub_metering_2 : ℚ
  sub_metering_3 : ℚ
  anomaly_score : ℚ
deriving DecidableEq, Repr

/-- The `PredictionResponse` schema of the service. -/
structure PredictionResponse where
  anomalies : List AnomalyEntry
  anomaly_count : Nat
  total_records : Nat
  anomaly_percentage : ℚ
deriving DecidableEq, Repr

/-- An HTTP error response (`HTTPException`): status code and detail. -/
structure HErr where
  status_code : Nat
  detail : String
deriving DecidableEq, Repr

/-- An exception escaping inside a handler body: either an `HTTPException`
or a plain exception carrying only a message. -/
inductive PyErr where
  | http (e : HErr)
  | exc (msg : String)
deriving DecidableEq, Repr

instance {ε α : Type} [DecidableEq ε] [DecidableEq α] : DecidableEq (Except ε α) :=
  fun a b =>
    match a, b with
    | Except.ok x, Except.ok y =>
      if h : x = y then isTrue (by rw [h]) else isFalse (fun hc => by cases hc; exact h rfl)
    | Except.error x, Except.error y =>
      if h : x = y then isTrue (by rw [h]) else isFalse (fun hc => by cases hc; exact h rfl)
    | Except.ok _, Except.error _ => isFalse (fun hc => by cases hc)
    | Except.error _, Except.ok _ => isFalse (fun hc => by cases hc)

/-- `str(e)` for a caught exception: Starlette `HTTPException` renders as
`"<status>: <detail>"`, a plain exception as its message. -/
def pyErrText (e : PyErr) : String :=
  match e with
  | PyErr.http h => toString h.status_code ++ ": " ++ h.detail
  | PyErr.exc m => m

/-- Python `repr` of a list of strings, as interpolated by the f-strings in
the missing-feature messages. -/
def pyStrList (xs : List String) : String :=
  "[" ++ String.intercalate ", " (xs.map (fun s => "'" ++ s ++ "'")) ++ "]"

/-- Building one response entry from a row and its score
(`main.py:172-184,363-375,444-456`). -/
def mkEntry (t : Table) (r : List Cell) (score : ℚ) : AnomalyEntry :=
  { datetime :=
      if "Datetime" ∈ t.columns then cellTime (getCellRow t.columns r "Datetime") else none
    global_active_power := featVal t r "Global_active_power"
    global_reactive_power := featVal t r "Global_reactive_power"
    voltage := featVal t r "Voltage"
    global_intensity := featVal t r "Global_intensity"
    sub_metering_1 := featVal t r "Sub_metering_1"
    sub_metering_2 := featVal t r "Sub_metering_2"
    sub_metering_3 := featVal t r "Sub_metering_3"
    anomaly_score := score }

/-- `.map({1: 0, -1: 1})` on a raw prediction label; other labels map to
missing (`none`). -/
def anomalyFlag (p : Int) : Option Int :=
  if p = 1 then some 0 else if p = -1 then some 1 else none

/-- Scaling and scoring each row: `scaler.transform`, `model.predict`,
`model.decision_function`, keeping the row alongside its raw label and
score (the `anomaly` / `anomaly_score` columns). -/
def scoreRows (m : IsolationForest) (s : StandardScaler) (t : Table) :
    List (List Cell × Int × ℚ) :=
  t.rows.map (fun r =>
    let xs := s.transform (featVec t r)
    (r, m.predictRow xs, m.scoreRow xs))

/-- The filter `df[df['anomaly'] == 1]` on a scored row. -/
def isFlagged (e : List Cell × Int × ℚ) : Bool :=
  anomalyFlag e.2.1 == some 1

/-- An uploaded file: its name and the table its text parses to under the
delimiter the handler chooses for that extension. -/
structure UploadFile where
  filename : String
  table : Table

/-- Python's `str.endswith`, computed on the character lists. -/
def strEndsWith (s suffix : String) : Bool :=
  suffix.data.isSuffixOf s.data

/-- The file-reading branch of the upload handlers (`main.py:126-131,
216-221`): `.csv` is checked first, then `.txt`; any other name raises a
400 `HTTPException` inside the handler's `try` block. -/
def loadUpload (f : UploadFile) : Except PyErr Table :=
  if strEndsWith f.filename ".csv" then Except.ok (loadCsv f.table)
  else if strEndsWith f.filename ".txt" then Except.ok (loadTxt f.table)
  else Except.error (PyErr.http
    ⟨400, "Unsupported file format. Please upload a .csv or .txt file"⟩)

/-- Input resolution shared by `/predict` and `/train`: without an upload,
fall back to the default dataset (400 inside the `try` when it is missing);
with one, read it according to its extension. -/
def getInputTable (defaultRaw : Option Table) (file : Option UploadFile) :
    Except PyErr Table :=
  match file with
  | none =>
    match load_default_dataset defaultRaw with
    | none => Except.error (PyErr.http
        ⟨400, "No file provided and default dataset not found"⟩)
    | some df => Except.ok df
  | some f => loadUpload f

/-- Body of `predict_anomalies` after the dataset is in hand
(`main.py:146-196`): feature check (400 inside the `try`), scoring, the
`anomaly == 1` filter, entry building, and the summary statistics.  No cap
is applied to the anomalies list on this path. -/
def predictBody (m : IsolationForest) (s : StandardScaler) (df : Table) :
    Except PyErr PredictionResponse :=
  let missing := missingFeatures df
  if missing.isEmpty then
    let scored := scoreRows m s df
    let anomalyRows := scored.filter isFlagged
    let anomalies := anomalyRows.map (fun e => mkEntry df e.1 e.2.2)
    let total_anomalies := anomalies.length
    let total_records := df.rows.length
    let anomaly_percentage : ℚ :=
      if 0 < total_records then ((total_anomalies : ℚ) / (total_records : ℚ)) * 100 else 0
    Except.ok ⟨anomalies, total_anomalies, total_records, anomaly_percentage⟩
  else
    Except.error (PyErr.http ⟨400, "Missing required features: " ++ pyStrList missing⟩)

/-- `POST /predict` (`main.py:106-199`).  The in-memory `model`/`scaler`
check happens before the `try` block, so its 500 propagates as-is; every
exception raised inside the `try` — including the handler's own 400
`HTTPException`s — is caught by the blanket `except Exception` and
re-raised as a 500 whose detail embeds `str(e)`. -/
def predict_anomalies (mv : Option IsolationForest) (sv : Option StandardScaler)
    (defaultRaw : Option Table) (file : Option UploadFile) :
    Except HErr PredictionResponse :=
  match mv, sv with
  | some m, some s =>
    (match
      (match getInputTable defaultRaw file with
       | Except.ok df => predictBody m s df
       | Except.error e => Except.error e) with
    | Except.ok r => Except.ok r
    | Except.error e => Except.error ⟨500, "Error processing file: " ++ pyErrText e⟩)
  | _, _ =>
    Except.error ⟨500, "Model not trained yet. Please upload a training dataset first."⟩

/-- The scaler choice of `/train` (`main.py:248-259`): if the primary
persisted scaler file exists and deserializes, it is reused to transform
the features; if it is absent, or loading/using it throws, a fresh
`StandardScaler` is fit on the feature matrix.  Returns the scaler together
with the scaled matrix. -/
def chooseScaler (sf : ScalerFitter) (scalerFile : FileLoad StandardScaler)
    (x : List (List ℚ)) : StandardScaler × List (List ℚ) :=
  match scalerFile with
  | FileLoad.stored s => (s, x.map s.transform)
  | FileLoad.corrupt =>
    let s := sf.fitScaler x
    (s, x.map s.transform)
  | FileLoad.absent =>
    let s := sf.fitScaler x
    (s, x.map s.transform)

/-- Body of `train_model` after the dataset is in hand (`main.py:236-271`):
feature check, scaler choice, isolation-forest fit with the fixed
hyperparameters `n_estimators=100`, `contamination=0.01`, `random_state=42`,
and the success message.  The result carries the new in-memory state. -/
def trainBody (ff : ForestFitter) (sf : ScalerFitter) (scalerFile : FileLoad StandardScaler)
    (df : Table) : Except PyErr (String × IsolationForest × StandardScaler) :=
  let missing := missingFeatures df
  if missing.isEmpty then
    let x := featMatrix df
    let sx := chooseScaler sf scalerFile x
    let m := ff.fit 100 (1 / 100) 42 sx.2
    Except.ok ("Model trained and saved successfully", m, sx.1)
  else
    Except.error (PyErr.http ⟨400, "Missing required features: " ++ pyStrList missing⟩)

/-- `POST /train` (`main.py:201-274`).  As in `/predict`, the whole body sits
in a `try` whose `except Exception` converts every exception — the 400
`HTTPException`s included — into a 500. -/
def train_model (ff : ForestFitter) (sf : ScalerFitter) (scalerFile : FileLoad StandardScaler)
    (defaultRaw : Option Table) (file : Option UploadFile) :
    Except HErr (String × IsolationForest × StandardScaler) :=
  match
    (match getInputTable defaultRaw file with
     | Except.ok df => trainBody ff sf scalerFile df
     | Except.error e => Except.error e) with
  | Except.ok r => Except.ok r
  | Except.error e => Except.error ⟨500, "Error training model: " ++ pyErrText e⟩

/-- A `start_date`/`end_date` query value as seen after
`pd.to_datetime(value, errors='coerce')`: either unparseable (keeping the
original text for the error message) or a timestamp.  An empty query string
is falsy in Python and behaves as if the parameter were omitted (`none`). -/
inductive QueryDate where
  | invalid (s : String)
  | parsed (ts : Timestamp)
deriving DecidableEq, Repr

/-- `df["Datetime"] >= start_datetime` on one row; a non-timestamp cell
compares as `False`, as NaT does in pandas. -/
def rowTimeCmpGE (cols : List String) (r : List Cell) (ts : Timestamp) : Bool :=
  match cellTime (getCellRow cols r "Datetime") with
  | some x => ts.key ≤ x.key
  | none => false

/-- `df["Datetime"] <= end_datetime` on one row. -/
def rowTimeCmpLE (cols : List String) (r : List Cell) (ts : Timestamp) : Bool :=
  match cellTime (getCellRow cols r "Datetime") with
  | some x => x.key ≤ ts.key
  | none => false

/-- The `start_date` filter of `/anomalies` (`main.py:298-308`): applied only
when the parameter is given and a `Datetime` column exists; an unparseable
value raises a `ValueError` that the local handler rewraps — message prefix
duplicated — into a 400. -/
def applyStartFilter (df : Table) (sd : Option QueryDate) : Except PyErr Table :=
  match sd with
  | none => Except.ok df
  | some q =>
    if "Datetime" ∈ df.columns then
      match q with
      | QueryDate.invalid s => Except.error (PyErr.http
          ⟨400, "Invalid start_date format: Invalid start_date format: " ++ s⟩)
      | QueryDate.parsed ts => Except.ok
          { columns := df.columns,
            rows := df.rows.filter (fun r => rowTimeCmpGE df.columns r ts) }
    else Except.ok df

/-- The `end_date` filter of `/anomalies` (`main.py:310-320`). -/
def applyEndFilter (df : Table) (ed : Option QueryDate) : Except PyErr Table :=
  match ed with
  | none => Except.ok df
  | some q =>
    if "Datetime" ∈ df.columns then
      match q with
      | QueryDate.invalid s => Except.error (PyErr.http
          ⟨400, "Invalid end_date format: Invalid end_date format: " ++ s⟩)
      | QueryDate.parsed ts => Except.ok
          { columns := df.columns,
            rows := df.rows.filter (fun r => rowTimeCmpLE df.columns r ts) }
    else Except.ok df

/-- The `feature_filter` step of `/anomalies` (`main.py:348-351`): the whole
frame is sorted descending by the named feature, but only when the filter
is one of the 7 feature columns; otherwise it is silently ignored. -/
def sortStep (df : Table) (ff : Option String) (scored : List (List Cell × Int × ℚ)) :
    List (List Cell × Int × ℚ) :=
  match ff with
  | some f =>
    if f ∈ requiredFeatures then
      scored.mergeSort (fun a b => decide (featVal df b.1 f ≤ featVal df a.1 f))
    else scored
  | none => scored

/-- Body of `get_anomalies` after the date filters pass with data left
(`main.py:331-387`): there is no explicit feature check here — a missing
feature column surfaces as a pandas `KeyError` (a plain exception) —
scoring, the optional sort, the `anomaly == 1` filter, and the truncation
`anomaly_df.head(1000)` before entries and statistics are built. -/
def anomaliesBody (m : IsolationForest) (s : StandardScaler) (df : Table)
    (ff : Option String) : Except PyErr PredictionResponse :=
  let missing := missingFeatures df
  if missing.isEmpty then
    let scored := scoreRows m s df
    let sorted := sortStep df ff scored
    let anomalyRows := sorted.filter isFlagged
    let capped := anomalyRows.take 1000
    let anomalies := capped.map (fun e => mkEntry df e.1 e.2.2)
    let total_anomalies := anomalies.length
    let total_records := sorted.length
    let anomaly_percentage : ℚ :=
      if 0 < total_records then ((total_anomalies : ℚ) / (total_records : ℚ)) * 100 else 0
    Except.ok ⟨anomalies, total_anomalies, total_records, anomaly_percentage⟩
  else
    Except.error (PyErr.exc (pyStrList missing ++ " not in index"))

/-- The availability check shared by `/anomalies` and
`/analyze-default-data` (`main.py:284-289,406-411`): when either in-memory
artifact is missing, `load_model()` is retried from disk. -/
def availableModels (mv : Option IsolationForest) (sv : Option StandardScaler)
    (backendDir modelsDir : FileLoad (IsolationForest × StandardScaler)) :
    Option (IsolationForest × StandardScaler) :=
  match mv, sv with
  | some m, some s => some (m, s)
  | _, _ => load_model backendDir modelsDir

/-- `GET /anomalies` (`main.py:276-396`).  This handler re-raises
`HTTPException`s unchanged (`except HTTPException: raise`), so its 400/404
survive; only plain exceptions become a 500.  An empty frame after the date
filters short-circuits to the all-zero response. -/
def get_anomalies (mv : Option IsolationForest) (sv : Option StandardScaler)
    (backendDir modelsDir : FileLoad (IsolationForest × StandardScaler))
    (defaultRaw : Option Table)
    (start_date end_date : Option QueryDate) (feature_filter : Option String) :
    Except HErr PredictionResponse :=
  match availableModels mv sv backendDir modelsDir with
  | none => Except.error ⟨500, "Models not available. Please train the model first."⟩
  | some ms =>
    match
      (match load_default_dataset defaultRaw with
       | none => Except.error (PyErr.http ⟨404, "Default dataset not found"⟩)
       | some df0 =>
         match applyStartFilter df0 start_date with
         | Except.error e => Except.error e
         | Except.ok df1 =>
           match applyEndFilter df1 end_date with
           | Except.error e => Except.error e
           | Except.ok df2 =>
             if df2.rows.length = 0 then
               Except.ok ⟨[], 0, 0, 0⟩
             else
               anomaliesBody ms.1 ms.2 df2 feature_filter) with
    | Except.ok r => Except.ok r
    | Except.error (PyErr.http h) => Except.error h
    | Except.error (PyErr.exc msg) =>
      Except.error ⟨500, "Error analyzing dataset: " ++ msg⟩

/-- The number of rows actually flagged anomalous on a frame — the length of
`df[df['anomaly'] == 1]` before any truncation. -/
def flaggedCount (m : IsolationForest) (s : StandardScaler) (df : Table) : Nat :=
  ((scoreRows m s df).filter isFlagged).length

/-- The untruncated flagged-row count reached by a `/anomalies` request:
follows the same branching as `get_anomalies` and reports the flagged count
of the date-filtered frame (0 on every error path). -/
def get_anomalies_flagged (mv : Option IsolationForest) (sv : Option StandardScaler)
    (backendDir modelsDir : FileLoad (IsolationForest × StandardScaler))
    (defaultRaw : Option Table)
    (start_date end_date : Option QueryDate) : Nat :=
  match availableModels mv sv backendDir modelsDir with
  | none => 0
  | some ms =>
    match load_default_dataset defaultRaw with
    | none => 0
    | some df0 =>
      match applyStartFilter df0 start_date with
      | Except.error _ => 0
      | Except.ok df1 =>
        match applyEndFilter df1 end_date with
        | Except.error _ => 0
        | Except.ok df2 => flaggedCount ms.1 ms.2 df2

/-- Body of `analyze_default_dataset` after sampling (`main.py:423-468`):
identical to the `/predict` body — in particular, no truncation — except
that a missing feature column is a plain `KeyError`, not a handler-raised
400. -/
def analyzeBody (m : IsolationForest) (s : StandardScaler) (df : Table) :
    Except PyErr PredictionResponse :=
  let missing := missingFeatures df
  if missing.isEmpty then
    let scored := scoreRows m s df
    let anomalyRows := scored.filter isFlagged
    let anomalies := anomalyRows.map (fun e => mkEntry df e.1 e.2.2)
    let total_anomalies := anomalies.length
    let total_records := df.rows.length
    let anomaly_percentage : ℚ :=
      if 0 < total_records then ((total_anomalies : ℚ) / (total_records : ℚ)) * 100 else 0
    Except.ok ⟨anomalies, total_anomalies, total_records, anomaly_percentage⟩
  else
    Except.error (PyErr.exc (pyStrList missing ++ " not in index"))

/-- `GET /analyze-default-data` (`main.py:398-471`).  The optional
`sample_size` triggers `df.sample(n, random_state=42)` — the seeded row
selection itself is the library's, abstracted as `sampler`.  This handler
has no `except HTTPException: raise`, so even its 404 is rewrapped into a
500 by the blanket `except Exception`. -/
def analyze_default_dataset (mv : Option IsolationForest) (sv : Option StandardScaler)
    (backendDir modelsDir : FileLoad (IsolationForest × StandardScaler))
    (defaultRaw : Option Table) (sample_size : Option Int)
    (sampler : Nat → List (List Cell) → List (List Cell)) :
    Except HErr PredictionResponse :=
  match availableModels mv sv backendDir modelsDir with
  | none => Except.error ⟨500, "Models not available. Please train the model first."⟩
  | some ms =>
    match
      (match load_default_dataset defaultRaw with
       | none => Except.error (PyErr.http ⟨404, "Default dataset not found"⟩)
       | some df0 =>
         let df :=
           match sample_size with
           | some n =>
             if n ≠ 0 ∧ 0 < n ∧ n < (df0.rows.length : Int) then
               { columns := df0.columns, rows := sampler n.toNat df0.rows }
             else df0
           | none => df0
         analyzeBody ms.1 ms.2 df) with
    | Except.ok r => Except.ok r
    | Except.error e =>
      Except.error ⟨500, "Error analyzing default dataset: " ++ pyErrText e⟩

/-- The percentage/count/total relationship a successful response must
satisfy (trivially true of error responses). -/
def pctOk (e : Except HErr PredictionResponse) : Prop :=
  match e with
  | Except.ok r =>
    (0 < r.total_records →
      r.anomaly_percentage = ((r.anomaly_count : ℚ) / (r.total_records : ℚ)) * 100)
    ∧ (r.total_records = 0 → r.anomaly_percentage = 0)
  | Except.error _ => True

/-- A successful response reports `anomaly_count` equal to the length of its
`anomalies` array (trivially true of error responses). -/
def countOk (e : Except HErr PredictionResponse) : Prop :=
  match e with
  | Except.ok r => r.anomaly_count = r.anomalies.length
  | Except.error _ => True

/-- A successful response carries at most 1000 anomaly entries (trivially
true of error responses). -/
def capOk (e : Except HErr PredictionResponse) : Prop :=
  match e with
  | Except.ok r => r.anomalies.length ≤ 1000
  | Except.error _ => True

/-- A successful response's statistics reflect the truncation of `n` flagged
rows to at most 1000: the reported count is `min 1000 n` and the percentage
is computed from that truncated count (trivially true of error responses). -/
def truncOk (e : Except HErr PredictionResponse) (n : Nat) : Prop :=
  match e with
  | Except.ok r =>
    r.anomaly_count = min 1000 n ∧
    (0 < r.total_records →
      r.anomaly_percentage = (((min 1000 n : Nat) : ℚ) / (r.total_records : ℚ)) * 100)
  | Except.error _ => True

/-- Length of the `anomalies` array of a successful response, `none` on an
error response. -/
def anomaliesLen (e : Except HErr PredictionResponse) : Option Nat :=
  match e with
  | Except.ok r => some r.anomalies.length
  | Except.error _ => none

/-- The common shape of every successfully assembled response satisfies the
percentage relationship. -/
theorem pctOk_mk (anoms : List AnomalyEntry) (total : Nat) :
    pctOk (Except.ok ⟨anoms, anoms.length, total,
      if 0 < total then ((anoms.length : ℚ) / (total : ℚ)) * 100 else 0⟩) := by
  constructor
  · intro h
    simp [pctOk, if_pos h]
  · intro h
    subst h
    simp [pctOk]

/-- Error responses satisfy the percentage relationship vacuously. -/
theorem pctOk_error (e : HErr) : pctOk (Except.error e) := trivial

/-- Inversion: a successful `/predict` body is exactly the uncapped
entry list over the flagged rows, with the length/total/percentage
statistics computed from it. -/
theorem predictBody_ok {m : IsolationForest} {s : StandardScaler} {df : Table}
    {r : PredictionResponse} (h : predictBody m s df = Except.ok r) :
    r = (let anoms := ((scoreRows m s df).filter isFlagged).map (fun e => mkEntry df e.1 e.2.2)
         ⟨anoms, anoms.length, df.rows.length,
           if 0 < df.rows.length then
             ((anoms.length : ℚ) / (df.rows.length : ℚ)) * 100
           else 0⟩) := by
  unfold predictBody at h
  dsimp only at h
  split at h
  · cases h; rfl
  · exact Except.noConfusion h

/-- Inversion: a successful `/anomalies` body is the entry list over the
first 1000 flagged rows of the (possibly sorted) frame. -/
theorem anomaliesBody_ok {m : IsolationForest} {s : StandardScaler} {df : Table}
    {ff : Option String} {r : PredictionResponse}
    (h : anomaliesBody m s df ff = Except.ok r) :
    r = (let sorted := sortStep df ff (scoreRows m s df)
         let anoms := ((sorted.filter isFlagged).take 1000).map (fun e => mkEntry df e.1 e.2.2)
         ⟨anoms, anoms.length, sorted.length,
           if 0 < sorted.length then
             ((anoms.length : ℚ) / (sorted.length : ℚ)) * 100
           else 0⟩) := by
  unfold anomaliesBody at h
  dsimp only at h
  split at h
  · cases h; rfl
  · exact Except.noConfusion h

/-- Inversion: a successful `/analyze-default-data` body is the uncapped
entry list over the flagged rows of its (possibly sampled) frame. -/
theorem analyzeBody_ok {m : IsolationForest} {s : StandardScaler} {df : Table}
    {r : PredictionResponse} (h : analyzeBody m s df = Except.ok r) :
    r = (let anoms := ((scoreRows m s df).filter isFlagged).map (fun e => mkEntry df e.1 e.2.2)
         ⟨anoms, anoms.length, df.rows.length,
           if 0 < df.rows.length then
             ((anoms.length : ℚ) / (df.rows.length : ℚ)) * 100
           else 0⟩) := by
  unfold analyzeBody at h
  dsimp only at h
  split at h
  · cases h; rfl
  · exact Except.noConfusion h

/-- A scaler whose transform is the identity, used as a concrete artifact in
evaluations. -/
def cScaler : StandardScaler := ⟨fun v => v⟩

/-- A detector labelling every row normal. -/
def cForest : IsolationForest := ⟨fun _ => 1, fun _ => 0⟩

/-- A detector labelling every row anomalous. -/
def anomForest : IsolationForest := ⟨fun _ => -1, fun _ => 0⟩

/-- A one-row upload lacking the `Voltage` feature column. -/
def noVoltageTable : Table :=
  ⟨["Global_active_power", "Global_reactive_power", "Global_intensity",
    "Sub_metering_1", "Sub_metering_2", "Sub_metering_3"],
   [[Cell.num 1, Cell.num 1, Cell.num 1, Cell.num 1, Cell.num 1, Cell.num 1]]⟩

/-- A 1001-row upload carrying exactly the 7 feature columns. -/
def bigTable : Table :=
  ⟨requiredFeatures, List.replicate 1001 (List.replicate 7 (Cell.num 1))⟩

/-- C1: a `/predict` upload missing one of the 7 required feature columns is
answered with HTTP **500**, not the 400 the specification promises: the
handler does raise `HTTPException(400, "Missing required features: ...")`,
but the blanket `except Exception` of `predict_anomalies` catches it and
re-raises it as a 500 whose detail merely embeds the original message
(`main.py:150-153,198-199`).  This evaluates the embedded endpoint at such
an upload with a trained model in memory. -/
theorem claim_C1_missing_feature_predict_gets_500 :
    predict_anomalies (some cForest) (some cScaler) none
      (some ⟨"upload.csv", noVoltageTable⟩) =
      Except.error ⟨500, "Error processing file: 400: Missing required features: ['Voltage']"⟩ := by
  decide

/-- C5: a POST to `/predict` while neither a fitted model nor a standardizer
is held in memory is rejected with a 500 error, for every request body
(`main.py:110-112`); this check precedes the `try` block, so the 500
propagates unchanged. -/
theorem claim_C5_predict_untrained_500 :
    ∀ (defaultRaw : Option Table) (file : Option UploadFile),
      predict_anomalies none none defaultRaw file =
        Except.error ⟨500, "Model not trained yet. Please upload a training dataset first."⟩ := by
  intro raw file
  rfl

set_option maxRecDepth 100000 in
/-- C2 counterexample: the claimed 1000-entry cap does not hold for
`/predict`.  With a trained model that flags every row, uploading a
1001-row file makes `/predict` succeed with 1001 anomaly entries: the
truncation `head(1000)` exists only in `get_anomalies`
(`main.py:357-359`), not in `predict_anomalies` (`main.py:169-188`). -/
theorem claim_C2_cex_predict_returns_1001 :
    anomaliesLen (predict_anomalies (some anomForest) (some cScaler) none
      (some ⟨"big.csv", bigTable⟩)) = some 1001 := by
  decide

/-- C2 amended: only the `/anomalies` endpoint caps its result: every
successful `get_anomalies` response carries at most 1000 anomaly entries
(`anomaly_df.head(1000)`, `main.py:357-359`); `/predict` and
`/analyze-default-data` return every flagged row uncapped. -/
theorem claim_C2_amended_only_anomalies_capped :
    ∀ (mv : Option IsolationForest) (sv : Option StandardScaler)
      (bd md : FileLoad (IsolationForest × StandardScaler)) (raw : Option Table)
      (sd ed : Option QueryDate) (ff : Option String),
      capOk (get_anomalies mv sv bd md raw sd ed ff) := by
  intro mv sv bd md raw sd ed ff
  unfold get_anomalies
  split
  · trivial
  · split
    · next r h =>
      split at h
      · exact Except.noConfusion h
      · split at h
        · exact Except.noConfusion h
        · split at h
          · exact Except.noConfusion h
          · split at h
            · cases h
              simp [capOk]
            · have hr := anomaliesBody_ok h
              subst hr
              simp only [capOk, List.length_map, List.length_take]
              exact min_le_left _ _
    · trivial
    · trivial

/-- C4: in every successful response of the three prediction endpoints,
`anomaly_percentage` equals `anomaly_count / total_records * 100` when
`total_records` is positive and equals 0 when `total_records` is 0
(`main.py:186-189,377-380,458-461` and the all-zero early return at
`main.py:323-329`). -/
theorem claim_C4_percentage_formula :
    ∀ (mv : Option IsolationForest) (sv : Option StandardScaler)
      (bd md : FileLoad (IsolationForest × StandardScaler)) (raw : Option Table)
      (file : Option UploadFile) (sd ed : Option QueryDate) (ff : Option String)
      (ss : Option Int) (sampler : Nat → List (List Cell) → List (List Cell)),
      pctOk (predict_anomalies mv sv raw file)
      ∧ pctOk (get_anomalies mv sv bd md raw sd ed ff)
      ∧ pctOk (analyze_default_dataset mv sv bd md raw ss sampler) := by
  intro mv sv bd md raw file sd ed ff ss sampler
  refine ⟨?_, ?_, ?_⟩
  · unfold predict_anomalies
    split
    · split
      · next r h =>
        split at h
        · have hr := predictBody_ok h
          subst hr
          exact pctOk_mk _ _
        · exact Except.noConfusion h
      · trivial
    · trivial
  · unfold get_anomalies
    split
    · trivial
    · split
      · next r h =>
        split at h
        · exact Except.noConfusion h
        · split at h
          · exact Except.noConfusion h
          · split at h
            · exact Except.noConfusion h
            · split at h
              · cases h
                exact pctOk_mk [] 0
              · have hr := anomaliesBody_ok h
                subst hr
                exact pctOk_mk _ _
      · trivial
      · trivial
  · unfold analyze_default_dataset
    split
    · trivial
    · split
      · next r h =>
        split at h
        · exact Except.noConfusion h
        · dsimp only at h
          have hr := analyzeBody_ok h
          subst hr
          exact pctOk_mk _ _
      · trivial

/-- A response assembled with `anomaly_count := len(anomalies)` satisfies the
count/list agreement, whatever the other statistics are. -/
theorem countOk_mk (anoms : List AnomalyEntry) (total : Nat) (pct : ℚ) :
    countOk (Except.ok ⟨anoms, anoms.length, total, pct⟩) := rfl

/-- The optional descending sort of `/anomalies` permutes the frame, so it
never changes how many rows are flagged anomalous. -/
theorem sortStep_filter_length (df : Table) (ff : Option String)
    (scored : List (List Cell × Int × ℚ)) :
    ((sortStep df ff scored).filter isFlagged).length = (scored.filter isFlagged).length := by
  unfold sortStep
  match ff with
  | none => rfl
  | some f =>
    dsimp only
    split
    · exact ((List.mergeSort_perm scored _).filter isFlagged).length_eq
    · rfl

/-- C9: every successful response of the three prediction endpoints reports
`anomaly_count` equal to the length of its `anomalies` array
(`total_anomalies = len(anomalies)`, `main.py:187,378,459`); and for
`/anomalies` the reported count is `min 1000` of the number of rows actually
flagged — so with more than 1000 flagged rows the count (and the percentage
computed from it) reflects the truncated 1000-entry list, not the true
flagged total. -/
theorem claim_C9_count_is_list_length_and_truncated :
    ∀ (mv : Option IsolationForest) (sv : Option StandardScaler)
      (bd md : FileLoad (IsolationForest × StandardScaler)) (raw : Option Table)
      (file : Option UploadFile) (sd ed : Option QueryDate) (ff : Option String)
      (ss : Option Int) (sampler : Nat → List (List Cell) → List (List Cell)),
      countOk (predict_anomalies mv sv raw file)
      ∧ countOk (get_anomalies mv sv bd md raw sd ed ff)
      ∧ countOk (analyze_default_dataset mv sv bd md raw ss sampler)
      ∧ truncOk (get_anomalies mv sv bd md raw sd ed ff)
          (get_anomalies_flagged mv sv bd md raw sd ed) := by
  intro mv sv bd md raw file sd ed ff ss sampler
  refine ⟨?_, ?_, ?_, ?_⟩
  · unfold predict_anomalies
    split
    · split
      · next r h =>
        split at h
        · have hr := predictBody_ok h
          subst hr
          exact countOk_mk _ _ _
        · exact Except.noConfusion h
      · trivial
    · trivial
  · unfold get_anomalies
    split
    · trivial
    · split
      · next r h =>
        split at h
        · exact Except.noConfusion h
        · split at h
          · exact Except.noConfusion h
          · split at h
            · exact Except.noConfusion h
            · split at h
              · cases h
                exact countOk_mk [] 0 0
              · have hr := anomaliesBody_ok h
                subst hr
                exact countOk_mk _ _ _
      · trivial
      · trivial
  · unfold analyze_default_dataset
    split
    · trivial
    · split
      · next r h =>
        split at h
        · exact Except.noConfusion h
        · dsimp only at h
          have hr := analyzeBody_ok h
          subst hr
          exact countOk_mk _ _ _
      · trivial
  · unfold get_anomalies get_anomalies_flagged
    cases hA : availableModels mv sv bd md with
    | none => trivial
    | some ms =>
      dsimp only
      cases hL : load_default_dataset raw with
      | none => trivial
      | some df0 =>
        dsimp only
        cases hS : applyStartFilter df0 sd with
        | error e => cases e <;> trivial
        | ok df1 =>
          dsimp only
          cases hE : applyEndFilter df1 ed with
          | error e => cases e <;> trivial
          | ok df2 =>
            dsimp only
            by_cases hz : df2.rows.length = 0
            · rw [if_pos hz]
              have hf : flaggedCount ms.1 ms.2 df2 = 0 := by
                unfold flaggedCount scoreRows
                rw [List.length_eq_zero.mp hz]
                rfl
              rw [hf]
              exact ⟨rfl, fun hp => absurd hp (by norm_num)⟩
            · rw [if_neg hz]
              cases hB : anomaliesBody ms.1 ms.2 df2 ff with
              | error e => cases e <;> trivial
              | ok r =>
                have hr := anomaliesBody_ok hB
                subst hr
                dsimp only
                have hc : (((sortStep df2 ff (scoreRows ms.1 ms.2 df2)).filter
                      isFlagged).take 1000).length
                    = min 1000 (flaggedCount ms.1 ms.2 df2) := by
                  rw [List.length_take, sortStep_filter_length]
                  rfl
                refine ⟨by rw [List.length_map, hc], ?_⟩
                intro hpos
                dsimp only at hpos ⊢
                rw [if_pos hpos, List.length_map, hc]

/-- A well-formed two-row raw table in the shape of the power-consumption
dataset: `Date`/`Time` plus the 7 feature columns, whose second row carries
a literal `"?"` in a feature column. -/
def featTable : Table :=
  ⟨["Date", "Time", "Global_active_power", "Global_reactive_power", "Voltage",
    "Global_intensity", "Sub_metering_1", "Sub_metering_2", "Sub_metering_3"],
   [[Cell.text "16/12/2006", Cell.text "17:24:00", Cell.num 4, Cell.num 1, Cell.num 234,
     Cell.num 18, Cell.num 0, Cell.num 1, Cell.num 17],
    [Cell.text "16/12/2006", Cell.text "17:25:00", Cell.text "?", Cell.num 1, Cell.num 1,
     Cell.num 1, Cell.num 1, Cell.num 1, Cell.num 1]]⟩

/-- A scaler-fitting stub standing in for `StandardScaler().fit`. -/
def cScalerFitter : ScalerFitter := ⟨fun _ => cScaler⟩

/-- A forest-fitting stub standing in for `IsolationForest(...).fit`. -/
def cForestFitter : ForestFitter := ⟨fun _ _ _ _ => cForest⟩

/-- C3: in every training invocation whose dataset loads and has all 7
features, if the primary persisted scaler file exists (and deserializes) it
is loaded and reused to transform the features — the resulting scaler is the
stored one, independent of the new data, and the detector is fit on the
matrix transformed by it; if that file is absent, a fresh standardizer is
fit on the training feature matrix (`main.py:248-259`). -/
theorem claim_C3_scaler_reused_or_refit :
    ∀ (ft : ForestFitter) (sf : ScalerFitter) (s : StandardScaler)
      (raw : Option Table) (file : Option UploadFile) (df : Table),
      getInputTable raw file = Except.ok df →
      missingFeatures df = [] →
      (train_model ft sf (FileLoad.stored s) raw file =
         Except.ok ("Model trained and saved successfully",
           ft.fit 100 (1 / 100) 42 ((featMatrix df).map s.transform), s))
      ∧ (train_model ft sf FileLoad.absent raw file =
         Except.ok ("Model trained and saved successfully",
           ft.fit 100 (1 / 100) 42
             ((featMatrix df).map (sf.fitScaler (featMatrix df)).transform),
           sf.fitScaler (featMatrix df))) := by
  intro ft sf s raw file df hIn hMiss
  constructor <;>
  · unfold train_model
    simp only [hIn]
    unfold trainBody chooseScaler
    dsimp only
    simp only [hMiss, List.isEmpty_nil, if_true]

/-- C3 witness: the claim instantiated at a concrete `.csv` upload of
`featTable` with concrete fitted artifacts. -/
theorem claim_C3_witness :
    getInputTable none (some ⟨"train.csv", featTable⟩) = Except.ok (loadCsv featTable)
    ∧ missingFeatures (loadCsv featTable) = []
    ∧ (train_model cForestFitter cScalerFitter (FileLoad.stored cScaler) none
         (some ⟨"train.csv", featTable⟩) =
       Except.ok ("Model trained and saved successfully",
         cForestFitter.fit 100 (1 / 100) 42
           ((featMatrix (loadCsv featTable)).map cScaler.transform), cScaler))
    ∧ (train_model cForestFitter cScalerFitter FileLoad.absent none
         (some ⟨"train.csv", featTable⟩) =
       Except.ok ("Model trained and saved successfully",
         cForestFitter.fit 100 (1 / 100) 42
           ((featMatrix (loadCsv featTable)).map
             (cScalerFitter.fitScaler (featMatrix (loadCsv featTable))).transform),
         cScalerFitter.fitScaler (featMatrix (loadCsv featTable)))) :=
  ⟨by decide, by decide,
    (claim_C3_scaler_reused_or_refit cForestFitter cScalerFitter cScaler none
      (some ⟨"train.csv", featTable⟩) (loadCsv featTable) (by decide) (by decide)).1,
    (claim_C3_scaler_reused_or_refit cForestFitter cScalerFitter cScaler none
      (some ⟨"train.csv", featTable⟩) (loadCsv featTable) (by decide) (by decide)).2⟩

/-- The sort step of `/anomalies` is skipped entirely when the requested
filter is not one of the 7 feature names. -/
theorem anomaliesBody_unknown_filter {f : String} (hf : f ∉ requiredFeatures)
    (m : IsolationForest) (s : StandardScaler) (df : Table) :
    anomaliesBody m s df (some f) = anomaliesBody m s df none := by
  unfold anomaliesBody
  dsimp only
  have hs : sortStep df (some f) (scoreRows m s df) = sortStep df none (scoreRows m s df) := by
    unfold sortStep
    dsimp only
    rw [if_neg hf]
  rw [hs]

/-- C10: a `feature_filter` value that is not one of the 7 feature column
names is silently ignored by `/anomalies`: the guard
`if feature_filter and feature_filter in features` (`main.py:349`) fails, no
error is raised, and the response equals that of the same request without
the parameter. -/
theorem claim_C10_unknown_filter_ignored :
    ∀ (mv : Option IsolationForest) (sv : Option StandardScaler)
      (bd md : FileLoad (IsolationForest × StandardScaler)) (raw : Option Table)
      (sd ed : Option QueryDate) (f : String),
      f ∉ requiredFeatures →
      get_anomalies mv sv bd md raw sd ed (some f) =
        get_anomalies mv sv bd md raw sd ed none := by
  intro mv sv bd md raw sd ed f hf
  unfold get_anomalies
  cases hA : availableModels mv sv bd md with
  | none => rfl
  | some ms =>
    dsimp only
    cases hL : load_default_dataset raw with
    | none => rfl
    | some df0 =>
      dsimp only
      cases hS : applyStartFilter df0 sd with
      | error e => rfl
      | ok df1 =>
        dsimp only
        cases hE : applyEndFilter df1 ed with
        | error e => rfl
        | ok df2 =>
          dsimp only
          by_cases hz : df2.rows.length = 0
          · rw [if_pos hz, if_pos hz]
          · rw [if_neg hz, if_neg hz, anomaliesBody_unknown_filter hf]

/-- C10 witness: the claim instantiated at the unknown filter `"Humidity"`
over the concrete default dataset `featTable` and concrete artifacts. -/
theorem claim_C10_witness :
    "Humidity" ∉ requiredFeatures
    ∧ get_anomalies (some cForest) (some cScaler) FileLoad.absent FileLoad.absent
        (some featTable) none none (some "Humidity") =
      get_anomalies (some cForest) (some cScaler) FileLoad.absent FileLoad.absent
        (some featTable) none none none :=
  ⟨by decide,
    claim_C10_unknown_filter_ignored (some cForest) (some cScaler) FileLoad.absent
      FileLoad.absent (some featTable) none none "Humidity" (by decide)⟩

/-- C8: a `/anomalies` request with a valid `start_date` strictly later than
every record's timestamp in the (loaded) default dataset filters the frame
empty (`df[df["Datetime"] >= start_datetime]`, `main.py:304`) and takes the
early return `total_records = 0`, empty `anomalies`, `anomaly_count = 0`,
`anomaly_percentage = 0` (`main.py:322-329`). -/
theorem claim_C8_start_date_after_all_records :
    ∀ (m : IsolationForest) (s : StandardScaler)
      (bd md : FileLoad (IsolationForest × StandardScaler)) (t : Table)
      (sd : Timestamp) (ff : Option String),
      "Datetime" ∈ (loadTxt t).columns →
      (∀ r ∈ (loadTxt t).rows, ∀ x,
        cellTime (getCellRow (loadTxt t).columns r "Datetime") = some x →
        x.key < sd.key) →
      get_anomalies (some m) (some s) bd md (some t)
          (some (QueryDate.parsed sd)) none ff =
        Except.ok ⟨[], 0, 0, 0⟩ := by
  intro m s bd md t sd ff hDT hlt
  have hfilter : (loadTxt t).rows.filter
      (fun r => rowTimeCmpGE (loadTxt t).columns r sd) = [] := by
    rw [List.filter_eq_nil_iff]
    intro r hr
    unfold rowTimeCmpGE
    cases hcell : cellTime (getCellRow (loadTxt t).columns r "Datetime") with
    | none => simp
    | some x =>
      have hx := hlt r hr x hcell
      simp [Nat.not_le.mpr hx]
  unfold get_anomalies
  dsimp only [availableModels, load_default_dataset, Option.map]
  unfold applyStartFilter
  dsimp only
  rw [if_pos hDT]
  dsimp only
  rw [hfilter]
  rfl

/-- C8 witness: the claim instantiated at the concrete default dataset
`featTable` (one surviving record, timestamped 2006-12-16 17:24:00) and the
later start date 2007-01-01 00:00:00. -/
theorem claim_C8_witness :
    "Datetime" ∈ (loadTxt featTable).columns
    ∧ (∀ r ∈ (loadTxt featTable).rows, ∀ x,
        cellTime (getCellRow (loadTxt featTable).columns r "Datetime") = some x →
        x.key < (Timestamp.mk 2007 1 1 0 0 0).key)
    ∧ get_anomalies (some cForest) (some cScaler) FileLoad.absent FileLoad.absent
        (some featTable) (some (QueryDate.parsed ⟨2007, 1, 1, 0, 0, 0⟩)) none none =
      Except.ok ⟨[], 0, 0, 0⟩ := by
  have h1 : "Datetime" ∈ (loadTxt featTable).columns := by decide
  have h2 : ∀ r ∈ (loadTxt featTable).rows, ∀ x,
      cellTime (getCellRow (loadTxt featTable).columns r "Datetime") = some x →
      x.key < (Timestamp.mk 2007 1 1 0 0 0).key := by
    intro r hr x hcell
    have hrows : (loadTxt featTable).rows =
        [[Cell.num 4, Cell.num 1, Cell.num 234, Cell.num 18, Cell.num 0, Cell.num 1,
          Cell.num 17, Cell.time ⟨2006, 12, 16, 17, 24, 0⟩]] := by decide
    rw [hrows] at hr
    have hreq : r = [Cell.num 4, Cell.num 1, Cell.num 234, Cell.num 18, Cell.num 0,
        Cell.num 1, Cell.num 17, Cell.time ⟨2006, 12, 16, 17, 24, 0⟩] := by
      simpa using hr
    subst hreq
    have hv : cellTime (getCellRow (loadTxt featTable).columns
        [Cell.num 4, Cell.num 1, Cell.num 234, Cell.num 18, Cell.num 0,
         Cell.num 1, Cell.num 17, Cell.time ⟨2006, 12, 16, 17, 24, 0⟩] "Datetime") =
        some ⟨2006, 12, 16, 17, 24, 0⟩ := by decide
    rw [hv] at hcell
    cases hcell
    decide
  exact ⟨h1, h2, claim_C8_start_date_after_all_records cForest cScaler FileLoad.absent
    FileLoad.absent featTable ⟨2007, 1, 1, 0, 0, 0⟩ none h1 h2⟩

/-- Zipping a list with a function of its own zip: index-wise pairing. -/
theorem zip_zipmap {α β γ : Type} (f : α × β → γ) :
    ∀ (l1 : List α) (l2 : List β),
      l1.zip ((l1.zip l2).map f) = (l1.zip l2).map (fun p => (p.1, f p))
  | [], _ => rfl
  | _ :: _, [] => rfl
  | a :: t1, b :: t2 => by
    simp only [List.zip_cons_cons, List.map_cons]
    exact congrArg _ (zip_zipmap f t1 t2)

/-- Column lookup after a per-cell transformation indexed by the column
name: the transformation is applied to the looked-up cell. -/
theorem getCell_zipmap (cols : List String) (r : List Cell)
    (g : String × Cell → Cell) (c : String) :
    getCellRow cols ((cols.zip r).map g) c =
      match (cols.zip r).find? (fun p => p.1 == c) with
      | some p => g (c, p.2)
      | none => Cell.na := by
  unfold getCellRow
  rw [zip_zipmap g cols r]
  rw [List.find?_map]
  have he : ((fun p => p.1 == c) ∘ fun p => ((p : String × Cell).1, g p)) =
      (fun p => p.1 == c) := rfl
  rw [he]
  cases hf : (cols.zip r).find? (fun p => p.1 == c) with
  | none => rfl
  | some p =>
    have hc : p.1 = c := by
      have := List.find?_some hf
      simpa using this
    subst hc
    rfl

/-- The numeric-coercion loop leaves the `Datetime` column alone and applies
`to_numeric` to every other looked-up cell. -/
theorem coRow_get (cols : List String) (r : List Cell) (c : String)
    (hc : (c == "Datetime") = false) :
    getCellRow cols (coRow cols r) c = numify (getCellRow cols r c) := by
  unfold coRow
  rw [getCell_zipmap cols r _ c]
  unfold getCellRow
  cases hf : (cols.zip r).find? (fun p => p.1 == c) with
  | none => rfl
  | some p =>
    dsimp only
    rw [hc]
    rfl

/-- The numeric-coercion loop leaves the `Datetime` cell unchanged. -/
theorem coRow_get_dt (cols : List String) (r : List Cell) :
    getCellRow cols (coRow cols r) "Datetime" = getCellRow cols r "Datetime" := by
  unfold coRow
  rw [getCell_zipmap cols r _ "Datetime"]
  unfold getCellRow
  cases hf : (cols.zip r).find? (fun p => p.1 == "Datetime") with
  | none => rfl
  | some p => rfl

/-- Filtering aligned name/cell pairs by a predicate on the name drops as
many pairs as filtering the names alone. -/
theorem zip_filter_length {α β : Type} (f : α → Bool) :
    ∀ (l1 : List α) (l2 : List β), l1.length = l2.length →
      ((l1.zip l2).filter (fun p => f p.1)).length = (l1.filter f).length := by
  intro l1
  induction l1 with
  | nil => intro l2 h; rfl
  | cons a t1 ih =>
    intro l2 h
    cases l2 with
    | nil => simp at h
    | cons b t2 =>
      have hlen : t1.length = t2.length := by simpa using h
      simp only [List.zip_cons_cons, List.filter_cons]
      cases hfa : f a with
      | false => simpa [hfa] using ih t2 hlen
      | true => simpa [hfa] using ih t2 hlen

/-- Re-zipping the filtered names against the filtered cells recovers the
filtered pairs, for aligned lists. -/
theorem filter_zip_eq {α β : Type} (f : α → Bool) :
    ∀ (l1 : List α) (l2 : List β), l1.length = l2.length →
      (l1.filter f).zip (((l1.zip l2).filter (fun p => f p.1)).map Prod.snd) =
        (l1.zip l2).filter (fun p => f p.1) := by
  intro l1
  induction l1 with
  | nil => intro l2 h; rfl
  | cons a t1 ih =>
    intro l2 h
    cases l2 with
    | nil => simp at h
    | cons b t2 =>
      have hlen : t1.length = t2.length := by simpa using h
      simp only [List.zip_cons_cons, List.filter_cons]
      cases hfa : f a with
      | false => simpa [hfa] using ih t2 hlen
      | true => simpa [hfa, List.zip_cons_cons] using ih t2 hlen

/-- A filter that can only remove non-matching elements does not change
`find?`. -/
theorem find?_filter_of_imp {α : Type} (p q : α → Bool) :
    ∀ (l : List α), (∀ a ∈ l, p a = true → q a = true) →
      (l.filter q).find? p = l.find? p := by
  intro l
  induction l with
  | nil => intro _; rfl
  | cons a t ih =>
    intro himp
    have hrest := ih (fun x hx => himp x (List.mem_cons_of_mem a hx))
    by_cases hqa : q a = true
    · rw [List.filter_cons_of_pos hqa]
      by_cases hpa : p a = true
      · rw [List.find?_cons_of_pos _ hpa, List.find?_cons_of_pos _ hpa]
      · rw [List.find?_cons_of_neg _ hpa, List.find?_cons_of_neg _ hpa, hrest]
    · have hpa : ¬p a = true := fun hp => hqa (himp a (List.mem_cons_self a t) hp)
      rw [List.filter_cons_of_neg hqa, List.find?_cons_of_neg _ hpa, hrest]

/-- Column lookup through a cellwise map that fixes `na`. -/
theorem mapcell_get (cols : List String) (r : List Cell) (f : Cell → Cell)
    (hf : f Cell.na = Cell.na) (c : String) :
    getCellRow cols (r.map f) c = f (getCellRow cols r c) := by
  unfold getCellRow
  rw [List.zip_map_right, List.find?_map]
  have he : ((fun p => p.1 == c) ∘ Prod.map id f) =
      (fun p => (p : String × Cell).1 == c) := rfl
  rw [he]
  cases hfind : (cols.zip r).find? (fun p => p.1 == c) with
  | none => exact hf.symm
  | some p => rfl

/-- In an aligned row, every present column is found by `find?` and yields a
cell of the row. -/
theorem find_col : ∀ (cols : List String) (r : List Cell) (c : String),
    c ∈ cols → r.length = cols.length →
    ∃ p, (cols.zip r).find? (fun p => p.1 == c) = some p ∧ p.2 ∈ r := by
  intro cols
  induction cols with
  | nil => simp
  | cons a t ih =>
    intro r c hc hlen
    cases r with
    | nil => simp at hlen
    | cons x rt =>
      by_cases hac : (a == c) = true
      · refine ⟨(a, x), ?_, by simp⟩
        rw [List.zip_cons_cons,
          @List.find?_cons_of_pos _ (fun p => p.1 == c) (a, x) (t.zip rt) hac]
      · have hct : c ∈ t := by
          rcases List.mem_cons.mp hc with h | h
          · subst h; simp at hac
          · exact h
        obtain ⟨p, hp, hmem⟩ := ih rt c hct (by simpa using hlen)
        refine ⟨p, ?_, List.mem_cons_of_mem x hmem⟩
        rw [List.zip_cons_cons,
          @List.find?_cons_of_neg _ (fun p => p.1 == c) (a, x) (t.zip rt) hac]
        exact hp

/-- The looked-up cell of a present column belongs to the (aligned) row. -/
theorem getCell_mem (cols : List String) (r : List Cell) (c : String)
    (hc : c ∈ cols) (hlen : r.length = cols.length) : getCellRow cols r c ∈ r := by
  obtain ⟨p, hp, hmem⟩ := find_col cols r c hc hlen
  unfold getCellRow
  rw [hp]
  exact hmem

/-- A lookup that yields something other than the `na` default found its
column. -/
theorem getCell_ne_na_mem (cols : List String) (r : List Cell) (c : String)
    (h : getCellRow cols r c ≠ Cell.na) : c ∈ cols := by
  unfold getCellRow at h
  cases hf : (cols.zip r).find? (fun p => p.1 == c) with
  | none => rw [hf] at h; exact absurd rfl h
  | some p =>
    have h1 := List.find?_some hf
    have h2 := List.mem_of_find?_eq_some hf
    have h3 : p.1 ∈ cols := (List.of_mem_zip h2).1
    have hpc : p.1 = c := by simpa using h1
    rwa [hpc] at h3

/-- Shape of the date/time column handling when no `Datetime` column
pre-exists: the new column is appended after `Date` and `Time` are
dropped. -/
theorem dtCols_of_not_mem {cols : List String} (hN : "Datetime" ∉ cols) :
    dtCols cols = cols.filter (fun c => !(c == "Date" || c == "Time")) ++ ["Datetime"] := by
  unfold dtCols
  dsimp only
  rw [if_neg hN, List.filter_append]
  rfl

/-- Row-level shape of the same transformation. -/
theorem dtRow_of_not_mem {cols : List String} (r : List Cell) (hN : "Datetime" ∉ cols) :
    dtRow cols r =
      ((cols.zip r).filter (fun p => !(p.1 == "Date" || p.1 == "Time"))).map Prod.snd
        ++ [dtCell (getCellRow cols r "Date") (getCellRow cols r "Time")] := by
  unfold dtRow
  dsimp only
  rw [if_neg hN, List.filter_append, List.map_append]
  rfl

/-- `getCellRow` written through its `find?`. -/
theorem getCellRow_eq_find (cols : List String) (r : List Cell) (c : String) :
    getCellRow cols r c =
      match (cols.zip r).find? (fun p => p.1 == c) with
      | some p => p.2
      | none => Cell.na := rfl

/-- The date/time handling step does not disturb any column other than
`Date`, `Time` and `Datetime`. -/
theorem dtRow_get {cols : List String} {r : List Cell} (c : String)
    (hwf : r.length = cols.length) (hN : "Datetime" ∉ cols)
    (hcD : (c == "Date") = false) (hcT : (c == "Time") = false)
    (hcDT : (("Datetime" : String) == c) = false) :
    getCellRow (dtCols cols) (dtRow cols r) c = getCellRow cols r c := by
  rw [dtCols_of_not_mem hN, dtRow_of_not_mem r hN]
  generalize dtCell (getCellRow cols r "Date") (getCellRow cols r "Time") = v
  have hlen : (cols.filter (fun c => !(c == "Date" || c == "Time"))).length =
      (((cols.zip r).filter (fun p => !(p.1 == "Date" || p.1 == "Time"))).map
        Prod.snd).length := by
    rw [List.length_map,
      zip_filter_length (fun x => !(x == "Date" || x == "Time")) cols r hwf.symm]
  have himp : ∀ p ∈ cols.zip r, ((p : String × Cell).1 == c) = true →
      (!(p.1 == "Date" || p.1 == "Time")) = true := by
    intro p hp hpc
    have hpce : p.1 = c := by simpa using hpc
    rw [hpce, hcD, hcT]
    rfl
  simp only [getCellRow_eq_find]
  rw [List.zip_append hlen,
    filter_zip_eq (fun x => !(x == "Date" || x == "Time")) cols r hwf.symm,
    List.find?_append, find?_filter_of_imp _ _ _ himp]
  simp only [List.zip_cons_cons, List.zip_nil_left]
  rw [@List.find?_cons_of_neg _ (fun p => p.1 == c) ("Datetime", v) [] (by simp [hcDT])]
  cases hf : (cols.zip r).find? (fun p => p.1 == c) with
  | some p => rfl
  | none => rfl

/-- The `Datetime` cell produced by the date/time handling step is exactly
the fixed-format parse of the concatenated `Date` and `Time` cells. -/
theorem dtRow_get_dt {cols : List String} {r : List Cell}
    (hwf : r.length = cols.length) (hN : "Datetime" ∉ cols) :
    getCellRow (dtCols cols) (dtRow cols r) "Datetime" =
      dtCell (getCellRow cols r "Date") (getCellRow cols r "Time") := by
  rw [dtCols_of_not_mem hN, dtRow_of_not_mem r hN]
  generalize dtCell (getCellRow cols r "Date") (getCellRow cols r "Time") = v
  have hlen : (cols.filter (fun c => !(c == "Date" || c == "Time"))).length =
      (((cols.zip r).filter (fun p => !(p.1 == "Date" || p.1 == "Time"))).map
        Prod.snd).length := by
    rw [List.length_map,
      zip_filter_length (fun x => !(x == "Date" || x == "Time")) cols r hwf.symm]
  have hnone : ((cols.zip r).filter
      (fun p => !(p.1 == "Date" || p.1 == "Time"))).find?
      (fun p => p.1 == "Datetime") = none := by
    rw [List.find?_eq_none]
    intro p hp hbeq
    have hpz := List.mem_of_mem_filter hp
    have hmem : p.1 ∈ cols := (List.of_mem_zip hpz).1
    have hpe : p.1 = "Datetime" := by simpa using hbeq
    exact hN (hpe ▸ hmem)
  rw [getCellRow_eq_find, List.zip_append hlen,
    filter_zip_eq (fun x => !(x == "Date" || x == "Time")) cols r hwf.symm,
    List.find?_append, hnone]
  simp only [List.zip_cons_cons, List.zip_nil_left]
  rw [@List.find?_cons_of_pos _ (fun p => p.1 == "Datetime") ("Datetime", v) [] (by simp)]
  rfl

/-- The numeric-coercion step preserves row width. -/
theorem coRow_length (cols1 : List String) (rr : List Cell)
    (h : rr.length = cols1.length) : (coRow cols1 rr).length = cols1.length := by
  unfold coRow
  rw [List.length_map, List.length_zip, h, Nat.min_self]

/-- The date/time step keeps rows as wide as its column list. -/
theorem dtRow_length {cols : List String} {r : List Cell}
    (hwf : r.length = cols.length) (hN : "Datetime" ∉ cols) :
    (dtRow cols r).length = (dtCols cols).length := by
  rw [dtRow_of_not_mem r hN, dtCols_of_not_mem hN]
  simp only [List.length_append, List.length_map, List.length_cons, List.length_nil]
  rw [zip_filter_length (fun x => !(x == "Date" || x == "Time")) cols r hwf.symm]

/-- Same, through the conditional step. -/
theorem dtRowIf_length {cols : List String} {r : List Cell}
    (hwf : r.length = cols.length) (hN : "Datetime" ∉ cols) :
    (dtRowIf cols r).length = (dtColsIf cols).length := by
  unfold dtRowIf dtColsIf
  split
  · exact dtRow_length hwf hN
  · exact hwf

/-- The whole per-row preprocessing preserves alignment with the new
column list. -/
theorem loadRow_length {cols : List String} {r : List Cell}
    (hwf : r.length = cols.length) (hN : "Datetime" ∉ cols) :
    (loadRow cols r).length = (dtColsIf cols).length := by
  unfold loadRow
  exact coRow_length _ _ (dtRowIf_length hwf hN)

/-- The conditional date/time step does not disturb other columns. -/
theorem dtRowIf_get {cols : List String} {r : List Cell} (c : String)
    (hwf : r.length = cols.length) (hN : "Datetime" ∉ cols)
    (hcD : c ≠ "Date") (hcT : c ≠ "Time") (hcDT : c ≠ "Datetime") :
    getCellRow (dtColsIf cols) (dtRowIf cols r) c = getCellRow cols r c := by
  unfold dtRowIf dtColsIf
  split
  · exact dtRow_get c hwf hN (by simpa using hcD) (by simpa using hcT)
      (by simpa using fun h => hcDT h.symm)
  · rfl

/-- End-to-end per-row preprocessing of one cell outside `Date`, `Time`,
`Datetime`: it is the numeric coercion of the original cell. -/
theorem loadRow_get {cols : List String} {r : List Cell} (c : String)
    (hwf : r.length = cols.length) (hN : "Datetime" ∉ cols)
    (hcD : c ≠ "Date") (hcT : c ≠ "Time") (hcDT : c ≠ "Datetime") :
    getCellRow (dtColsIf cols) (loadRow cols r) c = numify (getCellRow cols r c) := by
  unfold loadRow
  rw [coRow_get _ _ c (by simpa using hcDT), dtRowIf_get c hwf hN hcD hcT hcDT]

/-- Columns other than `Date`/`Time` survive the date/time step. -/
theorem mem_dtColsIf {cols : List String} {c : String}
    (hc : c ∈ cols) (hcD : c ≠ "Date") (hcT : c ≠ "Time") : c ∈ dtColsIf cols := by
  unfold dtColsIf dtCols
  split
  · dsimp only
    split
    · rw [List.mem_filter]
      exact ⟨hc, by simp [hcD, hcT]⟩
    · rw [List.mem_filter]
      exact ⟨List.mem_append_left _ hc, by simp [hcD, hcT]⟩
  · exact hc

/-- A row containing a missing value fails the `dropna` predicate. -/
theorem rowOk_false_of_na {r : List Cell} (h : Cell.na ∈ r) : rowOk r = false := by
  unfold rowOk
  rw [Bool.eq_false_iff]
  intro hall
  have := List.all_eq_true.mp hall _ h
  simp [Cell.isNa] at this

/-- A row whose cell in a present (non-date) column coerces to missing is
rejected by `dropna` after preprocessing. -/
theorem loadRow_not_kept {cols : List String} {r0 : List Cell} (c : String)
    (hwf : r0.length = cols.length) (hN : "Datetime" ∉ cols)
    (hcD : c ≠ "Date") (hcT : c ≠ "Time") (hcDT : c ≠ "Datetime")
    (hc : c ∈ cols)
    (hna : numify (getCellRow cols r0 c) = Cell.na) :
    rowOk (loadRow cols r0) = false := by
  apply rowOk_false_of_na
  have hval : getCellRow (dtColsIf cols) (loadRow cols r0) c = Cell.na := by
    rw [loadRow_get c hwf hN hcD hcT hcDT, hna]
  have hmem := getCell_mem (dtColsIf cols) (loadRow cols r0) c
    (mem_dtColsIf hc hcD hcT) (loadRow_length hwf hN)
  rwa [hval] at hmem

/-- None of the 7 feature columns is a date column. -/
theorem requiredFeatures_not_datecol :
    ∀ c ∈ requiredFeatures, c ≠ "Date" ∧ c ≠ "Time" ∧ c ≠ "Datetime" := by
  decide

/-- The post-`dropna` numeric invariant: every cell of every kept row, in
every column except `Datetime`, is a number. -/
theorem preprocess_numeric (u : Table) (hwf : u.WF) (hN : "Datetime" ∉ u.columns) :
    ∀ r ∈ (preprocess u).rows, ∀ c ∈ (preprocess u).columns, c ≠ "Datetime" →
      ∃ q, getCellRow (preprocess u).columns r c = Cell.num q := by
  intro r hr c hcin hcdt
  obtain ⟨hmem, hok⟩ := List.mem_filter.mp hr
  obtain ⟨r0, hr0, rfl⟩ := List.mem_map.mp hmem
  have hlen : (loadRow u.columns r0).length = (dtColsIf u.columns).length :=
    loadRow_length (hwf r0 hr0) hN
  have hmemv := getCell_mem (dtColsIf u.columns) (loadRow u.columns r0) c hcin hlen
  have hnotna : getCellRow (dtColsIf u.columns) (loadRow u.columns r0) c ≠ Cell.na := by
    intro hna
    rw [hna] at hmemv
    rw [rowOk_false_of_na hmemv] at hok
    exact Bool.noConfusion hok
  have hval : getCellRow (dtColsIf u.columns) (loadRow u.columns r0) c
      = numify (getCellRow (dtColsIf u.columns) (dtRowIf u.columns r0) c) := by
    unfold loadRow
    exact coRow_get _ _ c (by simpa using hcdt)
  rw [hval] at hnotna
  show ∃ q, getCellRow (dtColsIf u.columns) (loadRow u.columns r0) c = Cell.num q
  rw [hval]
  cases hy : getCellRow (dtColsIf u.columns) (dtRowIf u.columns r0) c with
  | num q => exact ⟨q, rfl⟩
  | na => rw [hy] at hnotna; exact absurd rfl hnotna
  | text s => rw [hy] at hnotna; exact absurd rfl hnotna
  | time x => rw [hy] at hnotna; exact absurd rfl hnotna

/-- The per-row image of the `.txt`/default loading pipeline (`na_values='?'`
read, then the shared preprocessing). -/
def loadRowTxt (cols : List String) (r : List Cell) : List Cell :=
  loadRow cols (r.map naQuestion)

/-- C6: for every dataset loaded through either loader path, a raw row with
a literal `"?"` in a feature column is dropped (its processed image is not
among the loaded rows), and every cell of every loaded row outside the
`Datetime` column is numeric with no missing values — `na_values='?'` /
`to_numeric(errors='coerce')` plus `dropna()` (`main.py:72-85,126-144`).
The default dataset path is `loadTxt` (`load_default_dataset` maps it over
the raw parse). -/
theorem claim_C6_question_rows_dropped :
    ∀ (t : Table), t.WF → "Datetime" ∉ t.columns →
      ((∀ r ∈ (loadTxt t).rows, ∀ c ∈ (loadTxt t).columns, c ≠ "Datetime" →
          ∃ q, getCellRow (loadTxt t).columns r c = Cell.num q)
        ∧ ∀ r ∈ t.rows, ∀ c ∈ requiredFeatures,
            getCellRow t.columns r c = Cell.text "?" →
            loadRowTxt t.columns r ∉ (loadTxt t).rows)
      ∧ ((∀ r ∈ (loadCsv t).rows, ∀ c ∈ (loadCsv t).columns, c ≠ "Datetime" →
          ∃ q, getCellRow (loadCsv t).columns r c = Cell.num q)
        ∧ ∀ r ∈ t.rows, ∀ c ∈ requiredFeatures,
            getCellRow t.columns r c = Cell.text "?" →
            loadRow t.columns r ∉ (loadCsv t).rows) := by
  intro t hwf hN
  have hwfTxt : (readTxt t).WF := by
    intro r hr
    obtain ⟨r0, hr0, rfl⟩ := List.mem_map.mp hr
    rw [List.length_map]
    exact hwf r0 hr0
  refine ⟨⟨preprocess_numeric (readTxt t) hwfTxt hN, ?_⟩,
    ⟨preprocess_numeric t hwf hN, ?_⟩⟩
  · intro r hr c hcf hcell habs
    obtain ⟨hcD, hcT, hcDT⟩ := requiredFeatures_not_datecol c hcf
    have hcv : getCellRow t.columns (r.map naQuestion) c = Cell.na := by
      rw [mapcell_get t.columns r naQuestion rfl c, hcell]
      rfl
    have hcmem : c ∈ t.columns :=
      getCell_ne_na_mem t.columns r c (by simp [hcell])
    have hdrop : rowOk (loadRowTxt t.columns r) = false := by
      unfold loadRowTxt
      exact loadRow_not_kept c (by rw [List.length_map]; exact hwf r hr) hN
        hcD hcT hcDT hcmem (by rw [hcv]; rfl)
    have hok := (List.mem_filter.mp habs).2
    rw [hdrop] at hok
    exact Bool.noConfusion hok
  · intro r hr c hcf hcell habs
    obtain ⟨hcD, hcT, hcDT⟩ := requiredFeatures_not_datecol c hcf
    have hcmem : c ∈ t.columns :=
      getCell_ne_na_mem t.columns r c (by simp [hcell])
    have hdrop : rowOk (loadRow t.columns r) = false :=
      loadRow_not_kept c (hwf r hr) hN hcD hcT hcDT hcmem (by rw [hcell]; rfl)
    have hok := (List.mem_filter.mp habs).2
    rw [hdrop] at hok
    exact Bool.noConfusion hok

/-- C7: for every loaded dataset carrying both a `Date` and a `Time` column
(and no prior `Datetime`), the loader produces a single combined `Datetime`
column — appended once, parsed per row by the fixed `%d/%m/%Y %H:%M:%S`
format (`dtCell` / `parseTimestamp`) — and removes both source columns;
both loader paths agree on the resulting columns (`main.py:75-77,134-136`). -/
theorem claim_C7_datetime_column_combined :
    ∀ (t : Table), t.WF → "Date" ∈ t.columns → "Time" ∈ t.columns →
      "Datetime" ∉ t.columns →
      ((loadTxt t).columns =
          t.columns.filter (fun c => !(c == "Date" || c == "Time")) ++ ["Datetime"])
      ∧ (loadTxt t).columns.count "Datetime" = 1
      ∧ "Date" ∉ (loadTxt t).columns
      ∧ "Time" ∉ (loadTxt t).columns
      ∧ (loadCsv t).columns = (loadTxt t).columns
      ∧ (∀ r ∈ t.rows,
          getCellRow (loadTxt t).columns (loadRowTxt t.columns r) "Datetime" =
            dtCell (naQuestion (getCellRow t.columns r "Date"))
              (naQuestion (getCellRow t.columns r "Time")))
      ∧ (∀ r ∈ t.rows,
          getCellRow (loadCsv t).columns (loadRow t.columns r) "Datetime" =
            dtCell (getCellRow t.columns r "Date") (getCellRow t.columns r "Time")) := by
  intro t hwf hD hT hN
  have hhas : hasDateTimeCols t.columns = true := by
    simp [hasDateTimeCols, hD, hT]
  have hcolsEq : (loadTxt t).columns =
      t.columns.filter (fun c => !(c == "Date" || c == "Time")) ++ ["Datetime"] := by
    show dtColsIf t.columns = _
    unfold dtColsIf
    rw [if_pos hhas, dtCols_of_not_mem hN]
  refine ⟨hcolsEq, ?_, ?_, ?_, rfl, ?_, ?_⟩
  · rw [hcolsEq, List.count_append]
    have h0 : (t.columns.filter (fun c => !(c == "Date" || c == "Time"))).count
        "Datetime" = 0 := by
      rw [List.count_eq_zero]
      intro h
      exact hN (List.mem_of_mem_filter h)
    rw [h0]
    rfl
  · rw [hcolsEq]
    intro h
    rcases List.mem_append.mp h with h | h
    · exact absurd (List.mem_filter.mp h).2 (by decide)
    · simp at h
  · rw [hcolsEq]
    intro h
    rcases List.mem_append.mp h with h | h
    · exact absurd (List.mem_filter.mp h).2 (by decide)
    · simp at h
  · intro r hr
    show getCellRow (dtColsIf t.columns)
        (loadRow t.columns (r.map naQuestion)) "Datetime" = _
    unfold loadRow
    rw [coRow_get_dt]
    unfold dtRowIf dtColsIf
    rw [if_pos hhas, if_pos hhas]
    rw [dtRow_get_dt (by rw [List.length_map]; exact hwf r hr) hN]
    rw [mapcell_get t.columns r naQuestion rfl "Date",
      mapcell_get t.columns r naQuestion rfl "Time"]
  · intro r hr
    show getCellRow (dtColsIf t.columns) (loadRow t.columns r) "Datetime" = _
    unfold loadRow
    rw [coRow_get_dt]
    unfold dtRowIf dtColsIf
    rw [if_pos hhas, if_pos hhas]
    rw [dtRow_get_dt (hwf r hr) hN]

/-- C6 witness: the claim instantiated at the concrete raw table
`featTable`, whose second row holds a `"?"` in the
`Global_active_power` column. -/
theorem claim_C6_witness :
    (Table.WF featTable ∧ "Datetime" ∉ featTable.columns)
    ∧ (((∀ r ∈ (loadTxt featTable).rows, ∀ c ∈ (loadTxt featTable).columns,
          c ≠ "Datetime" →
          ∃ q, getCellRow (loadTxt featTable).columns r c = Cell.num q)
        ∧ ∀ r ∈ featTable.rows, ∀ c ∈ requiredFeatures,
            getCellRow featTable.columns r c = Cell.text "?" →
            loadRowTxt featTable.columns r ∉ (loadTxt featTable).rows)
      ∧ ((∀ r ∈ (loadCsv featTable).rows, ∀ c ∈ (loadCsv featTable).columns,
          c ≠ "Datetime" →
          ∃ q, getCellRow (loadCsv featTable).columns r c = Cell.num q)
        ∧ ∀ r ∈ featTable.rows, ∀ c ∈ requiredFeatures,
            getCellRow featTable.columns r c = Cell.text "?" →
            loadRow featTable.columns r ∉ (loadCsv featTable).rows)) :=
  ⟨⟨by decide, by decide⟩,
    claim_C6_question_rows_dropped featTable (by decide) (by decide)⟩

/-- C7 witness: the claim instantiated at `featTable`, which carries `Date`
and `Time` columns in the expected format. -/
theorem claim_C7_witness :
    (Table.WF featTable ∧ "Date" ∈ featTable.columns ∧ "Time" ∈ featTable.columns
      ∧ "Datetime" ∉ featTable.columns)
    ∧ (((loadTxt featTable).columns =
          featTable.columns.filter (fun c => !(c == "Date" || c == "Time"))
            ++ ["Datetime"])
      ∧ (loadTxt featTable).columns.count "Datetime" = 1
      ∧ "Date" ∉ (loadTxt featTable).columns
      ∧ "Time" ∉ (loadTxt featTable).columns
      ∧ (loadCsv featTable).columns = (loadTxt featTable).columns
      ∧ (∀ r ∈ featTable.rows,
          getCellRow (loadTxt featTable).columns
              (loadRowTxt featTable.columns r) "Datetime" =
            dtCell (naQuestion (getCellRow featTable.columns r "Date"))
              (naQuestion (getCellRow featTable.columns r "Time")))
      ∧ (∀ r ∈ featTable.rows,
          getCellRow (loadCsv featTable).columns
              (loadRow featTable.columns r) "Datetime" =
            dtCell (getCellRow featTable.columns r "Date")
              (getCellRow featTable.columns r "Time"))) :=
  ⟨⟨by decide, by decide, by decide, by decide⟩,
    claim_C7_datetime_column_combined featTable (by decide) (by decide)
      (by decide) (by decide)⟩
